import Mathlib

/-!
Verification development for the weather-forecast-mcp repository.

The Python sources under `services/agent/` are shallowly embedded below.
Machine floats are modelled by exact rationals (`ℚ`); Python's banker's
rounding `round(x, n)` is modelled by `pyRound`.  Network fetching and
HTML parsing are modelled by an explicit `FetchOutcome` value: the HTML
tables the scraper would extract are given as lists of rows of cells,
and the regular-expression extraction of the first number from a cell's
text is abstracted by the cell's `num` field (`none` when the regex
finds no number in the text).
-/

namespace WeatherMCP

/-- Banker's rounding of a rational to an integer, the semantics of
Python's builtin `round`: ties (fractional part exactly 1/2) go to the
even neighbour. -/
def roundHalfEven (q : ℚ) : ℤ :=
  if q - ⌊q⌋ < 1/2 then ⌊q⌋
  else if (1:ℚ)/2 < q - ⌊q⌋ then ⌊q⌋ + 1
  else if ⌊q⌋ % 2 = 0 then ⌊q⌋ else ⌊q⌋ + 1

/-- Python's `round(q, p)` for `p` decimal digits (banker's rounding). -/
def pyRound (q : ℚ) (p : ℕ) : ℚ :=
  (roundHalfEven (q * (10:ℚ)^p) : ℚ) / (10:ℚ)^p

/-- Temperature block of one forecast day (`"temperature"` in the JSON,
unit Celsius). -/
structure TempRange where
  min : ℚ
  max : ℚ
deriving DecidableEq

/-- Precipitation block of one forecast day (`"precipitation"`, unit mm). -/
structure Precipitation where
  value : ℚ
  probability : ℚ
deriving DecidableEq

/-- One day of forecast data.  The source stores the date as the string
`(today + timedelta(days=day_i+1)).strftime("%Y-%m-%d")`; we keep the
offset `day_i + 1` in days from "today". -/
structure DayForecast where
  date_offset : ℕ
  temperature : TempRange
  precipitation : Precipitation
  humidity : ℚ
deriving DecidableEq

/-- One scraped station entry (`weather_forecast.py`, dict appended to
`stations`). -/
structure Station where
  name : String
  latitude : ℚ
  longitude : ℚ
  forecast : List DayForecast
deriving DecidableEq

/-- Result shape of `BMDWeatherScraper.scrape_forecast`:
`{"stations": [...]}`. -/
structure ScrapeResult where
  stations : List Station
deriving DecidableEq

/-- One `<td>`/`<th>` cell of a scraped table row.  `text` is
`get_text(strip=True)`; `num` abstracts
`re.search(r"[-+]?\d*\.\d+|\d+", text)` followed by `float(...)`:
`some v` when the regex finds a number `v` in the text, else `none`. -/
structure Cell where
  text : String
  num : Option ℚ
deriving DecidableEq

/-- A scraped HTML table: its list of `<tr>` rows, each a list of cells. -/
structure Table where
  rows : List (List Cell)
deriving DecidableEq

/-- Outcome of the HTTP fetch + soup stage in `scrape_forecast`:
either some exception was raised (network error, non-2xx status), or
the response parsed into a list of tables. -/
inductive FetchOutcome
  | failure
  | success (tables : List Table)
deriving DecidableEq

/-- Lower-casing of a Python string (`str.lower`). -/
def lowerStr (s : String) : String :=
  s.map Char.toLower

/-- Contiguous-substring test (Python's `needle in hay`), over char
lists. -/
def hasSeg (needle hay : List Char) : Bool :=
  match hay with
  | [] => needle.isEmpty
  | _ :: t => needle.isPrefixOf hay || hasSeg needle t

/-- `"kw" in header` for (already lower-cased) header text. -/
def kwIn (kw : String) (header : String) : Bool :=
  hasSeg kw.data header.data

/-- Dynamic header mapping of `scrape_forecast`: one pass over the
lower-cased header texts, recording the index of a column whose header
contains the keyword(s).  The Python loop overwrites on each hit, so a
later matching column wins; `-1` means "not found". -/
def detectIndices (headers : List String) : Int × Int × Int × Int :=
  headers.enum.foldl
    (fun acc p =>
      let i : Int := Int.ofNat p.1
      let h := p.2
      let ir := if kwIn "rain" h then i else acc.1
      let ix := if kwIn "max" h && kwIn "temp" h then i else acc.2.1
      let im := if kwIn "min" h && kwIn "temp" h then i else acc.2.2.1
      let ih := if kwIn "hum" h then i else acc.2.2.2
      (ir, ix, im, ih))
    (-1, -1, -1, -1)

/-- The row-local helper `get_val(idx, default)`: read the first number
found in cell `idx`, falling back to `default` when the column was not
detected (`idx = -1`), the index is out of range, or the regex finds no
number. -/
def get_val (cols : List Cell) (idx : Int) (dflt : ℚ) : ℚ :=
  if idx ≠ -1 ∧ 0 ≤ idx ∧ idx.toNat < cols.length then
    match cols.get? idx.toNat with
    | some c => c.num.getD dflt
    | none => dflt
  else dflt

/-- One synthesized day of the aggregate-mode forecast
(`scrape_forecast`, inner `for day_i in range(days)` loop): the single
reported rain value is spread over the days, and the temperatures get
the alternating `var = (day_i % 2) * 0.5` adjustment. -/
def aggDay (days : ℕ) (rain_val tmax_val tmin_val hum_val : ℚ) (day_i : ℕ) : DayForecast :=
  let daily_rain := rain_val / ((max 1 days : ℕ) : ℚ)
  let var := ((day_i % 2 : ℕ) : ℚ) * 0.5
  { date_offset := day_i + 1
  , temperature := { min := pyRound (tmin_val - var) 1, max := pyRound (tmax_val + var) 1 }
  , precipitation := { value := pyRound daily_rain 1
                     , probability := if 0 < daily_rain then 0.5 else 0 }
  , humidity := pyRound hum_val 1 }

/-- Parsing of one data row of the aggregate table (`scrape_forecast`,
outer `for row in rows` loop body).  `none` means the row is skipped
(`continue`): empty cell list, or a stray header row named
"station"/"name".  Latitude/longitude come from cells 1 and 2, with the
`(23.8, 90.4)` default when either extraction fails. -/
def parseRow (days : ℕ) (idx : Int × Int × Int × Int) (cols : List Cell) : Option Station :=
  match cols with
  | [] => none
  | c0 :: _ =>
    if lowerStr c0.text = "station" ∨ lowerStr c0.text = "name" then none
    else
      let latlon :=
        match (cols.get? 1).bind (fun c => c.num), (cols.get? 2).bind (fun c => c.num) with
        | some la, some lo => (la, lo)
        | _, _ => ((23.8 : ℚ), (90.4 : ℚ))
      let rain_val := get_val cols idx.1 0
      let tmax_val := get_val cols idx.2.1 30
      let tmin_val := get_val cols idx.2.2.1 20
      let hum_val := get_val cols idx.2.2.2 70
      some { name := c0.text
           , latitude := latlon.1
           , longitude := latlon.2
           , forecast := (List.range days).map (aggDay days rain_val tmax_val tmin_val hum_val) }

/-- One synthesized day of the fallback generator
(`_generate_fallback_data`, inner `generate_forecast` loop body). -/
def fallbackDay (lat lon base_temp base_rain : ℚ) (i : ℕ) : DayForecast :=
  let temp_variation := (lat - 23.0) * 0.3
  let rain_variation := (lon - 90.0) * 0.5
  let temp_min := base_temp + temp_variation - 4
  let temp_max := base_temp + temp_variation + 3
  let rain_val := max 0 (base_rain + rain_variation)
  let humidity := 70.0 + rain_variation
  { date_offset := i + 1
  , temperature := { min := pyRound temp_min 1, max := pyRound temp_max 1 }
  , precipitation := { value := pyRound rain_val 1
                     , probability := pyRound (min 1.0 (rain_val / 20.0)) 2 }
  , humidity := pyRound humidity 1 }

/-- The nested `generate_forecast(lat, lon, base_temp, base_rain)` of
`_generate_fallback_data`. -/
def generate_forecast (days : ℕ) (lat lon base_temp base_rain : ℚ) : List DayForecast :=
  (List.range days).map (fallbackDay lat lon base_temp base_rain)

/-- `BMDWeatherScraper._generate_fallback_data`: the fixed built-in
four-station set with deterministic pseudo-forecasts. -/
def _generate_fallback_data (days : ℕ) : ScrapeResult :=
  { stations :=
    [ { name := "Dhaka", latitude := 23.7104, longitude := 90.4074
      , forecast := generate_forecast days 23.7104 90.4074 30.0 4.0 }
    , { name := "Chittagong", latitude := 22.3569, longitude := 91.7832
      , forecast := generate_forecast days 22.3569 91.7832 29.0 10.0 }
    , { name := "Sylhet", latitude := 24.8949, longitude := 91.8687
      , forecast := generate_forecast days 24.8949 91.8687 27.0 8.0 }
    , { name := "Rajshahi", latitude := 24.3745, longitude := 88.6042
      , forecast := generate_forecast days 24.3745 88.6042 32.0 2.0 } ] }

/-- `BMDWeatherScraper.scrape_forecast(days)` given the fetch outcome.
Every failure path of the source (exception during fetch, no `<table>`
in the response, a first table without any `<tr>` — whose
`header_row.find_all` then raises into the outer `except` — or zero
surviving data rows) returns the fallback data instead of raising. -/
def scrape_forecast (days : ℕ) (o : FetchOutcome) : ScrapeResult :=
  match o with
  | .failure => _generate_fallback_data days
  | .success tables =>
    match tables with
    | [] => _generate_fallback_data days
    | t :: _ =>
      match t.rows with
      | [] => _generate_fallback_data days
      | header :: rest =>
        let headers_text := header.map (fun c => lowerStr c.text)
        let idx := detectIndices headers_text
        let stations := rest.filterMap (parseRow days idx)
        if stations = [] then _generate_fallback_data days
        else { stations := stations }

/-- Squared planar distance in raw degree units between a query point
and a station.  The source compares `math.sqrt` of this quantity;
since the square root is strictly monotone on nonnegatives, comparing
the squares selects exactly the same station (see
`sqrt_preserves_distOrder` below). -/
def dist2 (lat lon : ℚ) (s : Station) : ℚ :=
  (s.latitude - lat)^2 + (s.longitude - lon)^2

/-- The `for station in stations` loop of `get_closest_station`,
carrying `(closest, min_dist)`; `none` is the initial
`closest = None, min_dist = inf` state (the first candidate always
satisfies `dist < inf`).  The comparison is strict, so an earlier
candidate is kept on ties. -/
def closestLoop (lat lon : ℚ) : Option (Station × ℚ) → List Station → Option (Station × ℚ)
  | acc, [] => acc
  | acc, s :: rest =>
    let d := dist2 lat lon s
    match acc with
    | none => closestLoop lat lon (some (s, d)) rest
    | some (b, bd) =>
      if d < bd then closestLoop lat lon (some (s, d)) rest
      else closestLoop lat lon (some (b, bd)) rest

/-- `get_closest_station(lat, lon, stations)`. -/
def get_closest_station (lat lon : ℚ) (stations : List Station) : Option Station :=
  if stations = [] then none
  else (closestLoop lat lon none stations).map Prod.fst

/-- Reference selector written from the claim's words: the candidate
minimizing the (squared) planar distance, the first in input order on
ties, `none` exactly on the empty list. -/
def firstMinSpec (lat lon : ℚ) : List Station → Option Station
  | [] => none
  | s :: rest =>
    match firstMinSpec lat lon rest with
    | none => some s
    | some b => if dist2 lat lon s ≤ dist2 lat lon b then some s else some b

/-- Bounding box argument of `retrieve_weather_forecast`. -/
structure BBox where
  min_lat : ℚ
  min_lon : ℚ
  max_lat : ℚ
  max_lon : ℚ
deriving DecidableEq

/-- `"location"` block of the JSON result of
`retrieve_weather_forecast`. -/
structure RetrievedLocation where
  latitude : ℚ
  longitude : ℚ
  area_name : String
  source : String
deriving DecidableEq

/-- Decoded JSON result of `retrieve_weather_forecast`. -/
structure RetrieveResult where
  location : RetrievedLocation
  forecast : List DayForecast
deriving DecidableEq

/-- `retrieve_weather_forecast(bbox, forecast_days, parameters)`.
The `parameters` argument is ignored by the source.  `Except.error`
models a raised `RuntimeError` with the given message. -/
def retrieve_weather_forecast (bbox : BBox) (forecast_days : ℕ) (o : FetchOutcome) :
    Except String RetrieveResult :=
  let bmd_data := scrape_forecast forecast_days o
  let stations := bmd_data.stations
  if stations = [] then .error "Failed to scrape BMD weather data"
  else
    let center_lat := (bbox.min_lat + bbox.max_lat) / 2
    let center_lon := (bbox.min_lon + bbox.max_lon) / 2
    match get_closest_station center_lat center_lon stations with
    | none => .error "No weather station found near location"
    | some target =>
      .ok { location := { latitude := target.latitude
                        , longitude := target.longitude
                        , area_name := target.name
                        , source := "bmd_wrf_dynamic_scrape" }
          , forecast := target.forecast }

/-- `agent.py` line 105:
`forecast_days = max(1, min(7, intent.forecast_days))`. -/
def clampForecastDays (intent_days : ℤ) : ℤ :=
  max 1 (min 7 intent_days)

/-- The day count that `process_query` hands to the retrieval stage:
the clamped intent value (clamping happens before any retrieval call). -/
def agentScrape (intent_days : ℤ) (o : FetchOutcome) : ScrapeResult :=
  scrape_forecast (clampForecastDays intent_days).toNat o

/-- The `location` dict as consumed by `_fallback_explanation`: only
`area_name` is read, through `location.get("area_name", ...)`, so it
may be absent. -/
structure LocationData where
  area_name : Option String
deriving DecidableEq

/-- `location.get("area_name", "Unknown Location")`. -/
def locName (location : LocationData) : String :=
  location.area_name.getD "Unknown Location"

/-- Rendering of a rational into the message string; stands in for
Python's float formatting inside the f-strings (the exact digit
rendering is irrelevant to the claims). -/
def ratStr (q : ℚ) : String :=
  if q.den = 1 then toString q.num
  else toString q.num ++ "/" ++ toString q.den

/-- `WeatherAgent._fallback_explanation(location, is_farmer, forecast)`.
The source's final `except` branch (missing keys in the day dict) is
unreachable in the typed model, since `DayForecast` always carries its
fields. -/
def _fallback_explanation (location : LocationData) (is_farmer : Bool)
    (forecast : List DayForecast) : String :=
  let loc_name := locName location
  match forecast with
  | [] => "Weather data currently unavailable for " ++ loc_name ++ ". Please try again later."
  | day1 :: _ =>
    let rain := day1.precipitation.value
    let temp_max := day1.temperature.max
    if is_farmer then
      let advice := if rain < 5 then "irrigation recommended" else "monitor fields for drainage"
      "For farmers near " ++ loc_name ++ ": " ++ ratStr rain ++ "mm rain expected. "
        ++ advice ++ ". Max temp " ++ ratStr temp_max ++ "°C."
    else
      let advice := if 0 < rain then "Carry an umbrella" else "Good day for outdoor activities"
      "Forecast for " ++ loc_name ++ ": " ++ ratStr rain ++ "mm rain. "
        ++ advice ++ ". Max temp " ++ ratStr temp_max ++ "°C."

/-- GeoJSON polygon shape returned by `create_buffer`. -/
structure GeoPolygon where
  coordinates : List (List (ℚ × ℚ))
deriving DecidableEq

/-- Forward geodesic solver type standing for `pyproj.Geod("WGS84").fwd`:
arguments `lons lats az dist`, result `(lon_pt, lat_pt)` (the returned
back-azimuth is discarded by the source). -/
def GeodFwd : Type := ℚ → ℚ → ℚ → ℚ → ℚ × ℚ

/-- The geodesic destination depends on the azimuth only through the
direction it denotes, so it is 360°-periodic in the azimuth.  This is
the one property of `pyproj`'s solver the proofs use. -/
def AzPeriodic (fwd : GeodFwd) : Prop :=
  ∀ lon lat az d, fwd lon lat (az + 360) d = fwd lon lat az d

/-- `buffer_point.create_buffer(latitude, longitude, radius_km)`,
parameterized by the external geodesic solver.  Note the source
performs no input validation at all: every code path builds and
returns the polygon. -/
def create_buffer (fwd : GeodFwd) (latitude longitude radius_km : ℚ) : GeoPolygon :=
  let num_points : ℕ := 36
  let boundary := (List.range (num_points + 1)).map fun i =>
    let angle := (i : ℚ) * (360 / (num_points : ℚ))
    fwd longitude latitude angle (radius_km * 1000)
  { coordinates := [boundary] }

/-- A trivial geodesic solver (stays at the start point), used to
instantiate witnesses. -/
def constFwd : GeodFwd := fun lon lat _ _ => (lon, lat)

/-- The characters the district-name normalizer strips: whitespace,
the apostrophe (U+0027) and the hyphen (U+002D). -/
def junkChar (c : Char) : Bool :=
  c == ' ' || c == Char.ofNat 39 || c == Char.ofNat 45

/-- Modelled from the spec: `DistrictNameNormalizer.normalize` is not
present in the repository sources (only the spec describes it);
following the spec's words it "lower-cases the result and strips
whitespace, apostrophes, and hyphens". -/
def normalizeChars (s : List Char) : List Char :=
  (s.map Char.toLower).filter (fun c => !junkChar c)

/-- Modelled from the spec: string-level wrapper of `normalizeChars`. -/
def normalize (s : String) : String :=
  ⟨normalizeChars s.data⟩

/-- Two spellings "differ only in letter case, apostrophes, hyphens or
whitespace": the equivalence generated by inserting (or, via symmetry,
removing) one stripped character and by re-casing letters. -/
inductive SpellEqv : List Char → List Char → Prop
  | caseEqv (s t : List Char) (h : s.map Char.toLower = t.map Char.toLower) : SpellEqv s t
  | insertJunk (s t : List Char) (c : Char) (h : junkChar c = true) :
      SpellEqv (s ++ c :: t) (s ++ t)
  | symm {s t : List Char} : SpellEqv s t → SpellEqv t s
  | trans {s t u : List Char} : SpellEqv s t → SpellEqv t u → SpellEqv s u

/-- The spelling `Cox's Bazar` (built from char codes to keep the
apostrophe out of a string literal). -/
def coxsBazar : String :=
  ⟨['C', 'o', 'x', Char.ofNat 39, 's', ' ', 'B', 'a', 'z', 'a', 'r']⟩

/-- Claim-side restatement of one fallback day, written as a function
of the station's latitude offset from 23.0 and longitude offset from
90.0 (plus its per-station base temperature/rain constants). -/
def offsetDay (latOff lonOff base_temp base_rain : ℚ) (i : ℕ) : DayForecast :=
  { date_offset := i + 1
  , temperature := { min := pyRound (base_temp + latOff * 0.3 - 4) 1
                   , max := pyRound (base_temp + latOff * 0.3 + 3) 1 }
  , precipitation := { value := pyRound (max 0 (base_rain + lonOff * 0.5)) 1
                     , probability := pyRound (min 1.0 (max 0 (base_rain + lonOff * 0.5) / 20.0)) 2 }
  , humidity := pyRound (70.0 + lonOff * 0.5) 1 }

/-- Placeholder day used only to spell out concrete evaluations. -/
def dummyDay : DayForecast :=
  { date_offset := 0, temperature := ⟨0, 0⟩, precipitation := ⟨0, 0⟩, humidity := 0 }

/-- Placeholder station used only to spell out concrete evaluations. -/
def dummyStation : Station :=
  { name := "", latitude := 0, longitude := 0, forecast := [] }

/-- Concrete test station at the origin. -/
def stA : Station := { name := "A", latitude := 0, longitude := 0, forecast := [] }

/-- Concrete test station one degree north. -/
def stB : Station := { name := "B", latitude := 1, longitude := 0, forecast := [] }

/-- The Dhaka entry of the fallback set for a 1-day request, spelled
out for concrete instantiations. -/
def dhakaFallbackStation : Station :=
  { name := "Dhaka", latitude := 23.7104, longitude := 90.4074
  , forecast := generate_forecast 1 23.7104 90.4074 30.0 4.0 }

/-- The first table's data rows parse to zero usable stations
(vacuously true when the table has no rows at all — in the source that
case raises into the outer `except` and falls back as well). -/
def tableParsesEmpty (days : ℕ) (t : Table) : Prop :=
  ∀ header rest, t.rows = header :: rest →
    rest.filterMap (parseRow days (detectIndices (header.map fun c => lowerStr c.text))) = []

/-- The failure modes of a scrape request: fetch exception, response
with no table, or a first table yielding zero usable rows. -/
def scrapeFailed (days : ℕ) (o : FetchOutcome) : Prop :=
  o = .failure ∨ o = .success [] ∨
  ∃ t ts, o = .success (t :: ts) ∧ tableParsesEmpty days t

end WeatherMCP

namespace WeatherMCP

/-! ### Helper lemmas -/

theorem roundHalfEven_bounds (q : ℚ) :
    q - 1/2 ≤ (roundHalfEven q : ℚ) ∧ (roundHalfEven q : ℚ) ≤ q + 1/2 := by
  have h1 : ((⌊q⌋ : ℤ) : ℚ) ≤ q := Int.floor_le q
  have h2 : q < ((⌊q⌋ : ℤ) : ℚ) + 1 := Int.lt_floor_add_one q
  unfold roundHalfEven
  split_ifs <;> constructor <;> push_cast <;> linarith

theorem pyRound_lt_add_half (x : ℚ) : pyRound x 1 < pyRound (x + 1/2) 1 := by
  have hb1 := (roundHalfEven_bounds (x * 10^1)).2
  have hb2 := (roundHalfEven_bounds ((x + 1/2) * 10^1)).1
  have hx : (x + 1/2) * (10:ℚ)^1 = x * 10^1 + 5 := by ring
  unfold pyRound
  rw [hx] at hb2 ⊢
  have h10 : (0:ℚ) < 10^1 := by norm_num
  rw [div_lt_div_iff₀ h10 h10]
  have hAB : ((roundHalfEven (x * 10^1) : ℤ) : ℚ) < ((roundHalfEven (x * 10^1 + 5) : ℤ) : ℚ) := by
    generalize hA : ((roundHalfEven (x * 10^1) : ℤ) : ℚ) = A at *
    generalize hB : ((roundHalfEven (x * 10^1 + 5) : ℤ) : ℚ) = B at *
    linarith
  exact mul_lt_mul_of_pos_right hAB h10

theorem junk_toLower (c : Char) (hc : junkChar c = true) : c.toLower = c := by
  simp only [junkChar, Bool.or_eq_true, beq_iff_eq] at hc
  rcases hc with (h | h) | h <;> subst h <;> decide

/-! ### C2 — day-count clamping -/

/-- C2: `process_query` clamps the intent's day count with
`max(1, min(7, n))` before handing it to the retrieval stage: 0 becomes
1, 10 becomes 7, and the clamped value always lies in [1,7] (also after
conversion to the natural-number day count used by the scraper). -/
theorem clamp_forecast_days_spec :
    clampForecastDays 0 = 1 ∧ clampForecastDays 10 = 7 ∧
    (∀ n : ℤ, 1 ≤ clampForecastDays n ∧ clampForecastDays n ≤ 7) ∧
    (∀ (n : ℤ) (o : FetchOutcome),
        agentScrape n o = scrape_forecast (clampForecastDays n).toNat o) ∧
    (∀ n : ℤ, 1 ≤ (clampForecastDays n).toNat ∧ (clampForecastDays n).toNat ≤ 7) := by
  refine ⟨by decide, by decide, ?_, fun n o => rfl, ?_⟩
  · intro n
    unfold clampForecastDays
    omega
  · intro n
    unfold clampForecastDays
    omega

/-! ### C9 — deterministic explanation fallback -/

/-- C9: `_fallback_explanation` uses only day 1 of the forecast; with a
nonempty forecast it returns the one-line template containing the
location name, the day-1 rain amount, the binary-branch advice
(farmer: "irrigation recommended" iff rain < 5, else "monitor fields
for drainage"; citizen: "Carry an umbrella" iff rain > 0, else "Good
day for outdoor activities") and the day-1 max temperature; with an
empty forecast it returns the data-unavailable message naming the
location. -/
theorem fallback_explanation_spec (location : LocationData) (is_farmer : Bool)
    (forecast : List DayForecast) :
    (forecast = [] → _fallback_explanation location is_farmer forecast
        = "Weather data currently unavailable for " ++ locName location
          ++ ". Please try again later.") ∧
    (∀ d r r', _fallback_explanation location is_farmer (d :: r)
        = _fallback_explanation location is_farmer (d :: r')) ∧
    (∀ d r, _fallback_explanation location true (d :: r)
        = "For farmers near " ++ locName location ++ ": "
          ++ ratStr d.precipitation.value ++ "mm rain expected. "
          ++ (if d.precipitation.value < 5 then "irrigation recommended"
              else "monitor fields for drainage")
          ++ ". Max temp " ++ ratStr d.temperature.max ++ "°C.") ∧
    (∀ d r, _fallback_explanation location false (d :: r)
        = "Forecast for " ++ locName location ++ ": "
          ++ ratStr d.precipitation.value ++ "mm rain. "
          ++ (if 0 < d.precipitation.value then "Carry an umbrella"
              else "Good day for outdoor activities")
          ++ ". Max temp " ++ ratStr d.temperature.max ++ "°C.") := by
  refine ⟨?_, fun d r r' => rfl, fun d r => rfl, fun d r => rfl⟩
  intro h
  subst h
  rfl

/-- C9 witness: the empty-forecast branch at a concrete location. -/
theorem fallback_explanation_spec_witness :
    ([] : List DayForecast) = [] ∧
    _fallback_explanation ⟨some "Dhaka"⟩ true []
      = "Weather data currently unavailable for Dhaka. Please try again later." :=
  ⟨rfl, (fallback_explanation_spec ⟨some "Dhaka"⟩ true []).1 rfl⟩

/-! ### C3 — district-name normalization -/

/-- C3 (amended): the normalizer is invariant under re-casing and under
insertion/removal of whitespace, apostrophes and hyphens (spellings
related by `SpellEqv` normalize identically). -/
theorem normalize_invariant_under_spelling :
    ∀ s t : List Char, SpellEqv s t → normalizeChars s = normalizeChars t := by
  intro s t h
  induction h with
  | caseEqv s t hst =>
    unfold normalizeChars
    rw [hst]
  | insertJunk s t c hc =>
    unfold normalizeChars
    rw [List.map_append, List.map_append, List.filter_append, List.filter_append,
        List.map_cons]
    simp [List.filter_cons, junk_toLower c hc, hc]
  | symm _ ih => exact ih.symm
  | trans _ _ ih1 ih2 => exact ih1.trans ih2

/-- C3 witness: `"cox bazar"` and `"COX-BAZAR"` differ only in case, a
space and a hyphen, and normalize to the same key. -/
theorem normalize_invariant_under_spelling_witness :
    SpellEqv ("cox bazar".data) ("COX-BAZAR".data) ∧
    normalizeChars ("cox bazar".data) = normalizeChars ("COX-BAZAR".data) := by
  have h1 : SpellEqv ("cox bazar".data) ("coxbazar".data) :=
    SpellEqv.insertJunk ("cox".data) ("bazar".data) ' ' (by decide)
  have h2 : SpellEqv ("COX-BAZAR".data) ("cox-bazar".data) :=
    SpellEqv.caseEqv _ _ (by decide)
  have h3 : SpellEqv ("cox-bazar".data) ("coxbazar".data) :=
    SpellEqv.insertJunk ("cox".data) ("bazar".data) '-' (by decide)
  have h4 : SpellEqv ("cox bazar".data) ("COX-BAZAR".data) :=
    h1.trans (SpellEqv.symm (h2.trans h3))
  exact ⟨h4, normalize_invariant_under_spelling _ _ h4⟩

/-- C3 counterexample: the claim's example pair does NOT normalize to
the same key — stripping the apostrophe from `Cox's Bazar` leaves the
letter `s` (`coxsbazar`), while `cox-bazar` gives `coxbazar`; the two
spellings differ by more than case/apostrophes/hyphens. -/
theorem normalize_coxs_bazar_counterexample :
    normalize coxsBazar ≠ normalize "cox-bazar" ∧
    normalize coxsBazar = "coxsbazar" ∧
    normalize "cox-bazar" = "coxbazar" := by decide

/-! ### C4 — aggregate-mode per-day synthesis -/

/-- C4 counterexample: with a 2-day request and a reported max
temperature of 30, the produced day-0 max temperature is 30 (the
reported value, not divided by the day count); the claimed evenly
divided per-day value would be 15. -/
theorem aggregate_tmax_not_divided_counterexample :
    (aggDay 2 10 30 20 70 0).temperature.max = 30 ∧
    pyRound ((30:ℚ) / 2) 1 = 15 ∧ ((30:ℚ) ≠ 15) := by
  refine ⟨?_, ?_, by norm_num⟩ <;> norm_num [aggDay, pyRound, roundHalfEven]

/-- C4 (amended): only the rain value is divided evenly by the
(clamped-to-≥1) day count; humidity and the rain value are constant
across days; the temperatures are the reported values with the
alternating `(day_i % 2) * 0.5` adjustment (max raised, min lowered on
odd days), so consecutive days always get different max temperatures. -/
theorem aggregate_distribution_spec (days : ℕ) (r tx tn hm : ℚ) (i : ℕ) :
    (aggDay days r tx tn hm i).precipitation.value
        = pyRound (r / ((max 1 days : ℕ) : ℚ)) 1 ∧
    (aggDay days r tx tn hm i).precipitation.value
        = (aggDay days r tx tn hm 0).precipitation.value ∧
    (aggDay days r tx tn hm i).humidity = pyRound hm 1 ∧
    (aggDay days r tx tn hm i).humidity = (aggDay days r tx tn hm 0).humidity ∧
    (aggDay days r tx tn hm i).temperature.max
        = pyRound (tx + ((i % 2 : ℕ) : ℚ) * 0.5) 1 ∧
    (aggDay days r tx tn hm i).temperature.min
        = pyRound (tn - ((i % 2 : ℕ) : ℚ) * 0.5) 1 ∧
    (aggDay days r tx tn hm i).temperature.max
        ≠ (aggDay days r tx tn hm (i + 1)).temperature.max := by
  refine ⟨rfl, rfl, rfl, rfl, rfl, rfl, ?_⟩
  show pyRound (tx + ((i % 2 : ℕ) : ℚ) * 0.5) 1
      ≠ pyRound (tx + (((i + 1) % 2 : ℕ) : ℚ) * 0.5) 1
  have e0 : tx + ((0 : ℕ) : ℚ) * 0.5 = tx := by norm_num
  have e1 : tx + ((1 : ℕ) : ℚ) * 0.5 = tx + 1/2 := by norm_num
  rcases Nat.mod_two_eq_zero_or_one i with h | h
  · have h1 : (i + 1) % 2 = 1 := by omega
    rw [h, h1, e0, e1]
    exact (pyRound_lt_add_half tx).ne
  · have h1 : (i + 1) % 2 = 0 := by omega
    rw [h, h1, e0, e1]
    exact (pyRound_lt_add_half tx).ne'

/-! ### C5 — derived precipitation probabilities -/

theorem parseRow_shape (days : ℕ) (idx : Int × Int × Int × Int) (cols : List Cell)
    (s : Station) (h : parseRow days idx cols = some s) :
    ∃ r tx tn hm, s.forecast = (List.range days).map (aggDay days r tx tn hm) := by
  cases cols with
  | nil => simp [parseRow] at h
  | cons c0 cs =>
    simp only [parseRow] at h
    split at h
    · exact Option.noConfusion h
    · cases Option.some.inj h
      exact ⟨_, _, _, _, rfl⟩

theorem fallback_station_shape (days : ℕ) (s : Station)
    (hs : s ∈ (_generate_fallback_data days).stations) :
    ∃ bt br, s.forecast = generate_forecast days s.latitude s.longitude bt br := by
  simp only [_generate_fallback_data, List.mem_cons, List.not_mem_nil, or_false] at hs
  rcases hs with rfl | rfl | rfl | rfl <;> exact ⟨_, _, rfl⟩

theorem scrape_station_shape (days : ℕ) (o : FetchOutcome) (s : Station)
    (hs : s ∈ (scrape_forecast days o).stations) :
    (∃ r tx tn hm, s.forecast = (List.range days).map (aggDay days r tx tn hm)) ∨
    (∃ bt br, s.forecast = generate_forecast days s.latitude s.longitude bt br) := by
  cases o with
  | failure => exact Or.inr (fallback_station_shape days s hs)
  | success tables =>
    cases tables with
    | nil => exact Or.inr (fallback_station_shape days s hs)
    | cons t ts =>
      rcases hrows : t.rows with _ | ⟨header, rest⟩
      · simp only [scrape_forecast, hrows] at hs
        exact Or.inr (fallback_station_shape days s hs)
      · simp only [scrape_forecast, hrows] at hs
        split at hs
        · exact Or.inr (fallback_station_shape days s hs)
        · obtain ⟨row, _, hrow⟩ := List.mem_filterMap.1 hs
          exact Or.inl (parseRow_shape _ _ _ _ hrow)

/-- C5 (amended): the aggregate-mode probability rule is
`0.5 if daily_rain > 0 else 0.0` as claimed; but the synthetic-fallback
rule is `round(min(1, rain/20), 2)` (divided by 20, then rounded to two
decimals) — not `min(1, rain/10)`; and every probability the scraper
produces follows one of those two rules. -/
theorem precipitation_probability_rules :
    (∀ (days : ℕ) (r tx tn hm : ℚ) (i : ℕ),
        (aggDay days r tx tn hm i).precipitation.probability
          = if 0 < r / ((max 1 days : ℕ) : ℚ) then (0.5 : ℚ) else 0) ∧
    (∀ (lat lon bt br : ℚ) (i : ℕ),
        (fallbackDay lat lon bt br i).precipitation.probability
          = pyRound (min 1.0 (max 0 (br + (lon - 90.0) * 0.5) / 20.0)) 2) ∧
    (∀ (days : ℕ) (o : FetchOutcome) (s : Station),
        s ∈ (scrape_forecast days o).stations →
        ∀ d ∈ s.forecast,
          (∃ dr : ℚ, d.precipitation.probability = if 0 < dr then (0.5 : ℚ) else 0) ∨
          (∃ rv : ℚ, d.precipitation.probability = pyRound (min 1.0 (rv / 20.0)) 2)) := by
  refine ⟨fun days r tx tn hm i => rfl, fun lat lon bt br i => rfl, ?_⟩
  intro days o s hs d hd
  rcases scrape_station_shape days o s hs with ⟨r, tx, tn, hm, hf⟩ | ⟨bt, br, hf⟩
  · rw [hf] at hd
    obtain ⟨i, _, rfl⟩ := List.mem_map.1 hd
    exact Or.inl ⟨r / ((max 1 days : ℕ) : ℚ), rfl⟩
  · rw [hf, generate_forecast] at hd
    obtain ⟨i, _, rfl⟩ := List.mem_map.1 hd
    exact Or.inr ⟨max 0 (br + (s.longitude - 90.0) * 0.5), rfl⟩

/-- C5 witness: the Dhaka fallback station of a 1-day failed request,
whose day-1 probability follows the fallback rule. -/
theorem precipitation_probability_rules_witness :
    dhakaFallbackStation ∈ (scrape_forecast 1 .failure).stations ∧
    fallbackDay 23.7104 90.4074 30.0 4.0 0 ∈ dhakaFallbackStation.forecast ∧
    ((∃ dr : ℚ, (fallbackDay 23.7104 90.4074 30.0 4.0 0).precipitation.probability
        = if 0 < dr then (0.5 : ℚ) else 0) ∨
     (∃ rv : ℚ, (fallbackDay 23.7104 90.4074 30.0 4.0 0).precipitation.probability
        = pyRound (min 1.0 (rv / 20.0)) 2)) :=
  ⟨List.mem_cons_self _ _, List.mem_cons_self _ _,
    precipitation_probability_rules.2.2 1 .failure dhakaFallbackStation
      (List.mem_cons_self _ _) _ (List.mem_cons_self _ _)⟩

/-- C5 counterexample: for the Dhaka fallback station the produced
day-1 probability is 0.21 = round(min(1, 4.2037/20), 2), while the
claimed `min(1, dailyRainMm/10)` on the produced rain value 4.2 would
give 0.42. -/
theorem fallback_probability_counterexample :
    (((_generate_fallback_data 1).stations.headD dummyStation).forecast.headD
        dummyDay).precipitation.probability = 21/100 ∧
    min 1 ((((_generate_fallback_data 1).stations.headD dummyStation).forecast.headD
        dummyDay).precipitation.value / 10) = 21/50 ∧
    ((21 : ℚ)/100 ≠ 21/50) := by
  have h : List.range 1 = [0] := rfl
  refine ⟨?_, ?_, by norm_num⟩ <;>
    norm_num [_generate_fallback_data, generate_forecast, fallbackDay, pyRound, roundHalfEven, h]

/-! ### C6 — nearest-station matching -/

theorem firstMinSpec_ne_none (lat lon : ℚ) (s : Station) (rest : List Station) :
    firstMinSpec lat lon (s :: rest) ≠ none := by
  cases h : firstMinSpec lat lon rest with
  | none => simp [firstMinSpec, h]
  | some b =>
    simp only [firstMinSpec, h]
    split <;> simp

theorem firstMinSpec_mem (lat lon : ℚ) :
    ∀ (l : List Station) (b : Station), firstMinSpec lat lon l = some b → b ∈ l := by
  intro l
  induction l with
  | nil => intro b h; simp [firstMinSpec] at h
  | cons s rest ih =>
    intro b h
    cases hr : firstMinSpec lat lon rest with
    | none =>
      simp only [firstMinSpec, hr] at h
      obtain rfl := Option.some.inj h
      exact List.mem_cons_self _ _
    | some c =>
      simp only [firstMinSpec, hr] at h
      split at h
      · obtain rfl := Option.some.inj h
        exact List.mem_cons_self _ _
      · obtain rfl := Option.some.inj h
        exact List.mem_cons_of_mem _ (ih _ hr)

theorem firstMinSpec_min (lat lon : ℚ) :
    ∀ (l : List Station) (b : Station), firstMinSpec lat lon l = some b →
      ∀ t ∈ l, dist2 lat lon b ≤ dist2 lat lon t := by
  intro l
  induction l with
  | nil => intro b h; simp [firstMinSpec] at h
  | cons s rest ih =>
    intro b h t ht
    cases hr : firstMinSpec lat lon rest with
    | none =>
      simp only [firstMinSpec, hr] at h
      obtain rfl := Option.some.inj h
      cases rest with
      | nil =>
        rcases List.mem_cons.1 ht with rfl | h0
        · exact le_refl _
        · cases h0
      | cons s2 r2 => exact absurd hr (firstMinSpec_ne_none lat lon s2 r2)
    | some c =>
      simp only [firstMinSpec, hr] at h
      rcases List.mem_cons.1 ht with rfl | hmem
      · split at h
        · obtain rfl := Option.some.inj h
          exact le_refl _
        · next hnle =>
            obtain rfl := Option.some.inj h
            exact le_of_lt (lt_of_not_le hnle)
      · split at h
        · next hle =>
            obtain rfl := Option.some.inj h
            exact le_trans hle (ih _ hr t hmem)
        · obtain rfl := Option.some.inj h
          exact ih _ hr t hmem

theorem firstMinSpec_of_unique (lat lon : ℚ) :
    ∀ (l : List Station) (s : Station), s ∈ l →
      (∀ t ∈ l, dist2 lat lon s ≤ dist2 lat lon t) →
      (∀ t ∈ l, dist2 lat lon t = dist2 lat lon s → t = s) →
      firstMinSpec lat lon l = some s := by
  intro l
  induction l with
  | nil => intro s hs _ _; cases hs
  | cons a rest ih =>
    intro s hs hmin huniq
    rcases List.mem_cons.1 hs with rfl | hmem
    · cases hr : firstMinSpec lat lon rest with
      | none => simp [firstMinSpec, hr]
      | some c =>
        have hc : c ∈ rest := firstMinSpec_mem lat lon rest c hr
        have hle : dist2 lat lon s ≤ dist2 lat lon c := hmin c (List.mem_cons_of_mem _ hc)
        simp [firstMinSpec, hr, hle]
    · have hrest : firstMinSpec lat lon rest = some s :=
        ih s hmem (fun t ht => hmin t (List.mem_cons_of_mem _ ht))
          (fun t ht he => huniq t (List.mem_cons_of_mem _ ht) he)
      have hsa : dist2 lat lon s ≤ dist2 lat lon a := hmin a (List.mem_cons_self _ _)
      by_cases has : dist2 lat lon a ≤ dist2 lat lon s
      · have heq : a = s := huniq a (List.mem_cons_self _ _) (le_antisymm has hsa)
        subst heq
        simp [firstMinSpec, hrest]
      · simp [firstMinSpec, hrest, has]

theorem closestLoop_eq (lat lon : ℚ) :
    ∀ (l : List Station) (b : Station),
      closestLoop lat lon (some (b, dist2 lat lon b)) l
        = (firstMinSpec lat lon (b :: l)).map (fun r => (r, dist2 lat lon r)) := by
  intro l
  induction l with
  | nil => intro b; simp [closestLoop, firstMinSpec]
  | cons s rest ih =>
    intro b
    simp only [closestLoop]
    by_cases hlt : dist2 lat lon s < dist2 lat lon b
    · rw [if_pos hlt, ih s]
      obtain ⟨c, hc⟩ : ∃ c, firstMinSpec lat lon (s :: rest) = some c := by
        cases h : firstMinSpec lat lon (s :: rest) with
        | none => exact absurd h (firstMinSpec_ne_none lat lon s rest)
        | some c => exact ⟨c, rfl⟩
      have hcs : dist2 lat lon c ≤ dist2 lat lon s :=
        firstMinSpec_min lat lon (s :: rest) c hc s (List.mem_cons_self _ _)
      have hnb : ¬ dist2 lat lon b ≤ dist2 lat lon c := by
        intro hb
        exact absurd (lt_of_le_of_lt (le_trans hb hcs) hlt) (lt_irrefl _)
      conv_rhs => rw [firstMinSpec]
      rw [hc]
      simp [hnb]
    · rw [if_neg hlt, ih b]
      have hba : dist2 lat lon b ≤ dist2 lat lon s := le_of_not_lt hlt
      cases hr : firstMinSpec lat lon rest with
      | none =>
        have hrnil : rest = [] := by
          cases rest with
          | nil => rfl
          | cons x xs => exact absurd hr (firstMinSpec_ne_none lat lon x xs)
        subst hrnil
        simp [firstMinSpec, hba]
      | some c =>
        by_cases hsc : dist2 lat lon s ≤ dist2 lat lon c
        · have hbc : dist2 lat lon b ≤ dist2 lat lon c := le_trans hba hsc
          simp [firstMinSpec, hr, hsc, hba, hbc]
        · simp [firstMinSpec, hr, hsc]

theorem get_closest_eq_firstMinSpec (lat lon : ℚ) (l : List Station) :
    get_closest_station lat lon l = firstMinSpec lat lon l := by
  cases l with
  | nil => rfl
  | cons s rest =>
    have h1 : closestLoop lat lon none (s :: rest)
        = closestLoop lat lon (some (s, dist2 lat lon s)) rest := rfl
    rw [get_closest_station, if_neg (List.cons_ne_nil s rest), h1, closestLoop_eq]
    cases h : firstMinSpec lat lon (s :: rest) <;> simp

/-- C6: `get_closest_station` returns `none` exactly on the empty
candidate list, the unique candidate on a singleton list, and in
general the first candidate (in input order) minimizing the planar
degree-space distance; hence its result is invariant under reordering
whenever the minimizer is unique.  (The source compares `math.sqrt` of
`dist2`; the square root is strictly monotone, so the selection is the
same — see `sqrt_preserves_distOrder`.) -/
theorem nearest_station_spec :
    (∀ lat lon : ℚ, get_closest_station lat lon [] = none) ∧
    (∀ (lat lon : ℚ) (s : Station), get_closest_station lat lon [s] = some s) ∧
    (∀ (lat lon : ℚ) (l : List Station),
        get_closest_station lat lon l = firstMinSpec lat lon l) ∧
    (∀ (lat lon : ℚ) (l : List Station) (s : Station),
        get_closest_station lat lon l = some s →
        s ∈ l ∧ ∀ t ∈ l, dist2 lat lon s ≤ dist2 lat lon t) ∧
    (∀ (lat lon : ℚ) (l l' : List Station) (s : Station),
        l.Perm l' → s ∈ l →
        (∀ t ∈ l, dist2 lat lon s ≤ dist2 lat lon t) →
        (∀ t ∈ l, dist2 lat lon t = dist2 lat lon s → t = s) →
        get_closest_station lat lon l = get_closest_station lat lon l') := by
  refine ⟨fun lat lon => rfl, ?_, get_closest_eq_firstMinSpec, ?_, ?_⟩
  · intro lat lon s
    rw [get_closest_eq_firstMinSpec]
    simp [firstMinSpec]
  · intro lat lon l s h
    rw [get_closest_eq_firstMinSpec] at h
    exact ⟨firstMinSpec_mem lat lon l s h, firstMinSpec_min lat lon l s h⟩
  · intro lat lon l l' s hperm hmem hmin huniq
    rw [get_closest_eq_firstMinSpec, get_closest_eq_firstMinSpec,
        firstMinSpec_of_unique lat lon l s hmem hmin huniq,
        firstMinSpec_of_unique lat lon l' s (hperm.mem_iff.1 hmem)
          (fun t ht => hmin t (hperm.mem_iff.2 ht))
          (fun t ht he => huniq t (hperm.mem_iff.2 ht) he)]

/-- C6 witness: two stations with distinct distances from the origin;
the selection is unchanged by swapping the candidate order. -/
theorem nearest_station_spec_witness :
    ([stA, stB].Perm [stB, stA]) ∧ stA ∈ [stA, stB] ∧
    get_closest_station 0 0 [stA, stB] = get_closest_station 0 0 [stB, stA] := by
  have hperm : ([stA, stB]).Perm [stB, stA] := List.Perm.swap stB stA []
  refine ⟨hperm, List.mem_cons_self _ _, ?_⟩
  refine nearest_station_spec.2.2.2.2 0 0 [stA, stB] [stB, stA] stA hperm
    (List.mem_cons_self _ _) ?_ ?_
  · intro t ht
    rcases List.mem_cons.1 ht with rfl | ht2
    · exact le_refl _
    · rcases List.mem_cons.1 ht2 with rfl | h0
      · norm_num [dist2, stA, stB]
      · cases h0
  · intro t ht he
    rcases List.mem_cons.1 ht with rfl | ht2
    · rfl
    · rcases List.mem_cons.1 ht2 with rfl | h0
      · exfalso
        norm_num [dist2, stA, stB] at he
      · cases h0

/-- Justification for comparing squared distances: taking `math.sqrt`
(as the source does) preserves the strict ordering of the nonnegative
squared distances, so the same station minimizes either quantity. -/
theorem sqrt_preserves_distOrder (lat lon : ℚ) (s t : Station) :
    Real.sqrt ((dist2 lat lon s : ℚ)) < Real.sqrt ((dist2 lat lon t : ℚ))
      ↔ dist2 lat lon s < dist2 lat lon t := by
  have hs : (0:ℝ) ≤ ((dist2 lat lon s : ℚ) : ℝ) := by
    have : (0:ℚ) ≤ dist2 lat lon s := by unfold dist2; positivity
    exact_mod_cast this
  rw [Real.sqrt_lt_sqrt_iff hs]
  exact_mod_cast Iff.rfl

/-! ### C7 — geodesic buffer ring -/

/-- C7: for a valid center and a positive radius, `create_buffer`
returns a single ring of exactly 36 + 1 = 37 vertices (10° azimuth
steps), whose last vertex equals its first (the vertex at azimuth 360°
coincides with the one at azimuth 0° by periodicity of the geodesic
solver). -/
theorem buffer_ring_closed_spec (fwd : GeodFwd) (lat lon r : ℚ)
    (hper : AzPeriodic fwd) (hlat : -90 ≤ lat ∧ lat ≤ 90)
    (hlon : -180 ≤ lon ∧ lon ≤ 180) (hr : 0 < r) :
    (create_buffer fwd lat lon r).coordinates.length = 1 ∧
    ∀ ring ∈ (create_buffer fwd lat lon r).coordinates,
      ring.length = 36 + 1 ∧ ring ≠ [] ∧ ring.getLast? = ring.head? := by
  refine ⟨rfl, ?_⟩
  intro ring hring
  have hring' : ring = (List.range (36 + 1)).map
      (fun i : ℕ => fwd lon lat ((i : ℚ) * (360 / ((36 : ℕ) : ℚ))) (r * 1000)) :=
    List.eq_of_mem_singleton hring
  subst hring'
  refine ⟨?_, ?_, ?_⟩
  · rw [List.length_map, List.length_range]
  · intro hnil
    have h0 := congrArg List.length hnil
    rw [List.length_map, List.length_range] at h0
    exact absurd h0 (by norm_num)
  · have key : fwd lon lat (((36 : ℕ) : ℚ) * (360 / ((36 : ℕ) : ℚ))) (r * 1000)
        = fwd lon lat (((0 : ℕ) : ℚ) * (360 / ((36 : ℕ) : ℚ))) (r * 1000) := by
      have e1 : ((36 : ℕ) : ℚ) * (360 / ((36 : ℕ) : ℚ)) = 0 + 360 := by norm_num
      have e2 : ((0 : ℕ) : ℚ) * (360 / ((36 : ℕ) : ℚ)) = 0 := by norm_num
      rw [e1, e2, hper]
    have hl : ((List.range (36 + 1)).map
        (fun i : ℕ => fwd lon lat ((i : ℚ) * (360 / ((36 : ℕ) : ℚ))) (r * 1000))).getLast?
        = some (fwd lon lat (((36 : ℕ) : ℚ) * (360 / ((36 : ℕ) : ℚ))) (r * 1000)) := rfl
    have hh : ((List.range (36 + 1)).map
        (fun i : ℕ => fwd lon lat ((i : ℚ) * (360 / ((36 : ℕ) : ℚ))) (r * 1000))).head?
        = some (fwd lon lat (((0 : ℕ) : ℚ) * (360 / ((36 : ℕ) : ℚ))) (r * 1000)) := rfl
    rw [hl, hh]
    exact congrArg some key

/-- C7 witness: the trivial periodic solver at Dhaka-like coordinates
with a 15 km radius. -/
theorem buffer_ring_closed_spec_witness :
    AzPeriodic constFwd ∧ ((-90 : ℚ) ≤ 23.8 ∧ (23.8 : ℚ) ≤ 90) ∧
    ((-180 : ℚ) ≤ 90.4 ∧ (90.4 : ℚ) ≤ 180) ∧ ((0 : ℚ) < 15) ∧
    ((create_buffer constFwd 23.8 90.4 15).coordinates.length = 1 ∧
     ∀ ring ∈ (create_buffer constFwd 23.8 90.4 15).coordinates,
       ring.length = 36 + 1 ∧ ring ≠ [] ∧ ring.getLast? = ring.head?) :=
  ⟨fun _ _ _ _ => rfl, ⟨by norm_num, by norm_num⟩, ⟨by norm_num, by norm_num⟩, by norm_num,
    buffer_ring_closed_spec constFwd 23.8 90.4 15 (fun _ _ _ _ => rfl)
      ⟨by norm_num, by norm_num⟩ ⟨by norm_num, by norm_num⟩ (by norm_num)⟩

/-! ### C8 — buffer input validation -/

/-- C8 counterexample: called with the invalid radius −5 (and an
in-range center), `create_buffer` does not raise any input error — the
source contains no validation or raise path at all, so the embedding
is a total function — and it returns an ordinary polygon whose single
ring has 37 vertices. -/
theorem buffer_invalid_radius_counterexample :
    (create_buffer constFwd 23.8 90.4 (-5)).coordinates.length = 1 ∧
    ((create_buffer constFwd 23.8 90.4 (-5)).coordinates.headD []).length = 36 + 1 := by
  constructor <;> rfl

/-- C8 (amended): `create_buffer` performs no input validation: even
for a radius ≤ 0 it returns a normally-shaped polygon (one ring of
36 + 1 vertices) instead of raising an input error. -/
theorem buffer_no_validation_spec (fwd : GeodFwd) (lat lon r : ℚ) (hr : r ≤ 0) :
    (create_buffer fwd lat lon r).coordinates.length = 1 ∧
    ∀ ring ∈ (create_buffer fwd lat lon r).coordinates, ring.length = 36 + 1 := by
  refine ⟨rfl, ?_⟩
  intro ring hring
  have hring' : ring = (List.range (36 + 1)).map
      (fun i : ℕ => fwd lon lat ((i : ℚ) * (360 / ((36 : ℕ) : ℚ))) (r * 1000)) :=
    List.eq_of_mem_singleton hring
  subst hring'
  rw [List.length_map, List.length_range]

/-- C8 witness: the amended statement at radius −5. -/
theorem buffer_no_validation_spec_witness :
    ((-5 : ℚ) ≤ 0) ∧
    ((create_buffer constFwd 23.8 90.4 (-5)).coordinates.length = 1 ∧
     ∀ ring ∈ (create_buffer constFwd 23.8 90.4 (-5)).coordinates, ring.length = 36 + 1) :=
  ⟨by norm_num, buffer_no_validation_spec constFwd 23.8 90.4 (-5) (by norm_num)⟩

/-! ### C1 — fallback on every failure mode -/

/-- C1: on a fetch failure, a response without tables, or a parse that
yields zero usable rows, `scrape_forecast` returns (never raises) the
fixed fallback data: exactly the four built-in stations Dhaka,
Chittagong, Sylhet and Rajshahi, each with a forecast of exactly the
requested number of days whose values are the deterministic
`offsetDay` functions of the station's latitude offset from 23.0 and
longitude offset from 90.0 (and its per-station base constants). -/
theorem scrape_fallback_on_failure (days : ℕ) (o : FetchOutcome) (h : scrapeFailed days o) :
    scrape_forecast days o = _generate_fallback_data days ∧
    (_generate_fallback_data days).stations.map Station.name
      = ["Dhaka", "Chittagong", "Sylhet", "Rajshahi"] ∧
    (∀ s ∈ (_generate_fallback_data days).stations, s.forecast.length = days) ∧
    (_generate_fallback_data days).stations
      = [ { name := "Dhaka", latitude := 23.7104, longitude := 90.4074
          , forecast := (List.range days).map
              (offsetDay (23.7104 - 23.0) (90.4074 - 90.0) 30.0 4.0) }
        , { name := "Chittagong", latitude := 22.3569, longitude := 91.7832
          , forecast := (List.range days).map
              (offsetDay (22.3569 - 23.0) (91.7832 - 90.0) 29.0 10.0) }
        , { name := "Sylhet", latitude := 24.8949, longitude := 91.8687
          , forecast := (List.range days).map
              (offsetDay (24.8949 - 23.0) (91.8687 - 90.0) 27.0 8.0) }
        , { name := "Rajshahi", latitude := 24.3745, longitude := 88.6042
          , forecast := (List.range days).map
              (offsetDay (24.3745 - 23.0) (88.6042 - 90.0) 32.0 2.0) } ] := by
  refine ⟨?_, rfl, ?_, rfl⟩
  · rcases h with rfl | rfl | ⟨t, ts, rfl, ht⟩
    · rfl
    · rfl
    · rcases hrows : t.rows with _ | ⟨header, rest⟩
      · simp [scrape_forecast, hrows]
      · have hemp := ht header rest hrows
        simp only [scrape_forecast, hrows]
        rw [if_pos hemp]
  · intro s hs
    rcases fallback_station_shape days s hs with ⟨bt, br, hf⟩
    rw [hf, generate_forecast, List.length_map, List.length_range]

/-- C1 witness: a plain fetch failure with a 2-day request. -/
theorem scrape_fallback_on_failure_witness :
    scrapeFailed 2 .failure ∧
    scrape_forecast 2 .failure = _generate_fallback_data 2 ∧
    (∀ s ∈ (_generate_fallback_data 2).stations, s.forecast.length = 2) :=
  ⟨Or.inl rfl, (scrape_fallback_on_failure 2 .failure (Or.inl rfl)).1,
    (scrape_fallback_on_failure 2 .failure (Or.inl rfl)).2.2.1⟩

/-! ### C10 — the empty-stations error branch is unreachable -/

theorem fallback_stations_ne_nil (days : ℕ) :
    (_generate_fallback_data days).stations ≠ [] := by
  simp [_generate_fallback_data]

theorem scrape_stations_ne_nil (days : ℕ) (o : FetchOutcome) :
    (scrape_forecast days o).stations ≠ [] := by
  cases o with
  | failure => exact fallback_stations_ne_nil days
  | success tables =>
    cases tables with
    | nil => exact fallback_stations_ne_nil days
    | cons t ts =>
      rcases hrows : t.rows with _ | ⟨header, rest⟩
      · simp only [scrape_forecast, hrows]
        exact fallback_stations_ne_nil days
      · simp only [scrape_forecast, hrows]
        split
        · exact fallback_stations_ne_nil days
        · next hne => exact hne

/-- C10: `scrape_forecast` always returns a nonempty station list (the
4-station fallback substitutes on every failure path, and its entries
carry in-range latitude/longitude values), so the
`RuntimeError("Failed to scrape BMD weather data")` branch of
`retrieve_weather_forecast` is unreachable. -/
theorem scrape_never_empty_spec (days : ℕ) (o : FetchOutcome) (bbox : BBox) :
    (scrape_forecast days o).stations ≠ [] ∧
    (∀ s ∈ (_generate_fallback_data days).stations,
        -90 ≤ s.latitude ∧ s.latitude ≤ 90 ∧ -180 ≤ s.longitude ∧ s.longitude ≤ 180) ∧
    retrieve_weather_forecast bbox days o
      ≠ Except.error "Failed to scrape BMD weather data" := by
  refine ⟨scrape_stations_ne_nil days o, ?_, ?_⟩
  · intro s hs
    simp only [_generate_fallback_data, List.mem_cons, List.not_mem_nil, or_false] at hs
    rcases hs with rfl | rfl | rfl | rfl <;> refine ⟨by norm_num, by norm_num, by norm_num, by norm_num⟩
  · simp only [retrieve_weather_forecast]
    rw [if_neg (scrape_stations_ne_nil days o)]
    obtain ⟨st, hst⟩ : ∃ st,
        get_closest_station ((bbox.min_lat + bbox.max_lat) / 2)
          ((bbox.min_lon + bbox.max_lon) / 2) (scrape_forecast days o).stations = some st := by
      rw [get_closest_eq_firstMinSpec]
      rcases hs : (scrape_forecast days o).stations with _ | ⟨a, l⟩
      · exact absurd hs (scrape_stations_ne_nil days o)
      · cases hf : firstMinSpec ((bbox.min_lat + bbox.max_lat) / 2)
            ((bbox.min_lon + bbox.max_lon) / 2) (a :: l) with
        | none => exact absurd hf (firstMinSpec_ne_none _ _ _ _)
        | some c => exact ⟨c, rfl⟩
    rw [hst]
    simp

/-- C10 witness: the statement at a concrete failed 1-day request. -/
theorem scrape_never_empty_spec_witness :
    (scrape_forecast 1 .failure).stations ≠ [] ∧
    (∀ s ∈ (_generate_fallback_data 1).stations,
        -90 ≤ s.latitude ∧ s.latitude ≤ 90 ∧ -180 ≤ s.longitude ∧ s.longitude ≤ 180) ∧
    retrieve_weather_forecast ⟨0, 0, 0, 0⟩ 1 .failure
      ≠ Except.error "Failed to scrape BMD weather data" :=
  scrape_never_empty_spec 1 .failure ⟨0, 0, 0, 0⟩

end WeatherMCP
